import Mathlib

/-!
Verification of the LLM orchestration pattern layer of the repository
(`04-AI-Patterns/01-Prompt-Chaining.py`, `02-routing.py`, `03-parallization.py`
and the two-call tool protocol of `03-AI-Introduction/03-tools.py`,
`04-retrieval.py`).

Modelling conventions:
- Confidence scores and other JSON numbers are rationals (ℚ); the decimal
  literal 0.7 compared at each gate of the source is written as the exact
  fraction `mkRat 7 10`.  The orderings the code relies on coincide with
  the rational orderings at these magnitudes.
- A raw model-response text is abstracted by its `json.loads` outcome:
  either `RawText.invalid` (the text is not valid JSON, `json.loads`
  raises) or `RawText.valid j` (the text decodes to the JSON value `j`).
- The Completion Client is an external collaborator; each orchestrator is
  parameterised by an oracle giving the client response for each request it
  can issue.  A response is either a raised transport error or a returned
  message content (`Option RawText`, `none` being a null `message.content`).
- Call counts and handler-invocation traces are made explicit observables
  of the orchestrators, mirroring which `ai.chat.completions.create` sites
  execute on each control path of the source.
-/

/-- JSON values, the image of Python `json.loads`.  An object models a
Python dict produced by `json.loads` (field lookup by key). -/
inductive Json where
  | null
  | bool (b : Bool)
  | num (q : ℚ)
  | str (s : String)
  | arr (elems : List Json)
  | obj (fields : List (String × Json))

/-- Raw response text, abstracted by its JSON-decoding outcome. -/
inductive RawText where
  | invalid (s : String)
  | valid (j : Json)

/-- Field lookup in a decoded JSON object. -/
def jLookup : List (String × Json) → String → Option Json
  | [], _ => none
  | (k, v) :: rest, key => if k = key then some v else jLookup rest key

/-- Decode a JSON array all of whose elements must be strings
(a `list[str]` pydantic field). -/
def decodeStrList : List Json → Option (List String)
  | [] => some []
  | .str s :: rest => (decodeStrList rest).map (fun l => s :: l)
  | _ => none

/-- Errors a Pattern Step can raise.  These model, in order: an exception
raised by the API call itself (`TransportError`), the `ValueError` raised on
a `None` message content (`EmptyResponseError`), a `json.JSONDecodeError`
from `json.loads`, a pydantic `ValidationError` carrying the offending
field (`SchemaValidationError`), the failed `assert tool_calls is not None`
(`NoToolCallError`), and the `IndexError` of `tool_calls[0]` on an empty
list. -/
inductive CallError where
  | transport
  | emptyResponse
  | jsonDecode
  | schema (field : String)
  | noToolCall
  | indexError
deriving DecidableEq

deriving instance DecidableEq for Except

/-- Field named by an error: only a `SchemaValidationError` names one. -/
def CallError.fieldName : CallError → Option String
  | .schema f => some f
  | _ => none

/-- Outcome of one `ai.chat.completions.create` call: the call raised, or
it returned a message whose `content` is `none` or some raw text. -/
inductive ApiResult where
  | raised
  | returned (content : Option RawText)

/-- Typed Result Parser applied to raw text: `json.loads` followed by
pydantic construction `T(**data)` with the schema validator `parse`
(its `String` error is the offending field). -/
def decode_and_validate {T : Type} (parse : Json → Except String T) :
    RawText → Except CallError T
  | .invalid _ => .error .jsonDecode
  | .valid j =>
    match parse j with
    | .error f => .error (.schema f)
    | .ok t => .ok t

/-- Shared body of every JSON-mode Pattern Step of the source: one API
call, the `if response is None: raise ValueError` guard, then
`T(**json.loads(response))`. -/
def runStep {T : Type} (parse : Json → Except String T) :
    ApiResult → Except CallError T
  | .raised => .error .transport
  | .returned none => .error .emptyResponse
  | .returned (some rt) => decode_and_validate parse rt

/-! Schemas of `01-Prompt-Chaining.py`. -/

/-- Schema `EventValidation` (first chain step). -/
structure EventValidation where
  description : String
  is_event : Bool
  confidence_score : ℚ
deriving DecidableEq

/-- Schema `EventDetails` (second chain step). -/
structure EventDetails where
  name : String
  date : String
  duration : ℚ
  participants : List String
deriving DecidableEq

/-- Schema `EventConfirmation` (third chain step). -/
structure EventConfirmation where
  confirmation_message : String
  calendar_link : Option String
deriving DecidableEq

/-- Validator for `EventValidation`: `description : str`,
`is_event : bool`, `confidence_score : float` with `ge=0.0, le=1.0`.
A missing or mistyped field, or an out-of-range bound, errors with that
field; a non-object errors at the root. -/
def parseEventValidation (j : Json) : Except String EventValidation :=
  match j with
  | .obj fs =>
    match jLookup fs "description" with
    | some (.str d) =>
      match jLookup fs "is_event" with
      | some (.bool b) =>
        match jLookup fs "confidence_score" with
        | some (.num q) =>
          if 0 ≤ q ∧ q ≤ 1 then .ok ⟨d, b, q⟩ else .error "confidence_score"
        | _ => .error "confidence_score"
      | _ => .error "is_event"
    | _ => .error "description"
  | _ => .error "__root__"

/-- Serializer for `EventValidation` (pydantic dump, declaration order). -/
def eventValidationToJson (x : EventValidation) : Json :=
  .obj [("description", .str x.description),
        ("is_event", .bool x.is_event),
        ("confidence_score", .num x.confidence_score)]

/-- Validator for `EventDetails`. -/
def parseEventDetails (j : Json) : Except String EventDetails :=
  match j with
  | .obj fs =>
    match jLookup fs "name" with
    | some (.str n) =>
      match jLookup fs "date" with
      | some (.str dt) =>
        match jLookup fs "duration" with
        | some (.num du) =>
          match jLookup fs "participants" with
          | some (.arr xs) =>
            match decodeStrList xs with
            | some ps => .ok ⟨n, dt, du, ps⟩
            | none => .error "participants"
          | _ => .error "participants"
        | _ => .error "duration"
      | _ => .error "date"
    | _ => .error "name"
  | _ => .error "__root__"

/-- Serializer for `EventDetails`. -/
def eventDetailsToJson (x : EventDetails) : Json :=
  .obj [("name", .str x.name),
        ("date", .str x.date),
        ("duration", .num x.duration),
        ("participants", .arr (x.participants.map .str))]

/-- Validator for `EventConfirmation`; `calendar_link : Optional[str]`
accepts a string or `null`. -/
def parseEventConfirmation (j : Json) : Except String EventConfirmation :=
  match j with
  | .obj fs =>
    match jLookup fs "confirmation_message" with
    | some (.str m) =>
      match jLookup fs "calendar_link" with
      | some (.str l) => .ok ⟨m, some l⟩
      | some .null => .ok ⟨m, none⟩
      | _ => .error "calendar_link"
    | _ => .error "confirmation_message"
  | _ => .error "__root__"

/-- Serializer for `EventConfirmation` (`None` dumps as JSON null). -/
def eventConfirmationToJson (x : EventConfirmation) : Json :=
  .obj [("confirmation_message", .str x.confirmation_message),
        ("calendar_link", match x.calendar_link with
                          | some l => .str l
                          | none => .null)]

/-! Schemas of `02-routing.py`. -/

/-- Literal label `request_type` of schema `RequestType`. -/
inductive RequestLabel where
  | new_event
  | modify_event
  | other
deriving DecidableEq

/-- Schema `RequestType` (classification step). -/
structure RequestType where
  description : String
  request_type : RequestLabel
  confidence_score : ℚ
deriving DecidableEq

/-- Schema `NewEventDetails` (new-event handler). -/
structure NewEventDetails where
  name : String
  date : String
  duration : ℚ
  participants : List String
deriving DecidableEq

/-- Schema `ModifyEventDetails` (modify-event handler). -/
structure ModifyEventDetails where
  description : String
  updated_date : String
  participants_to_add : List String
  participants_to_remove : List String
deriving DecidableEq

/-- Schema `ModifyConfirmation` (handler return value). -/
structure ModifyConfirmation where
  success : Bool
  message : String
deriving DecidableEq

/-- Validator for `RequestType`: the `Literal` field accepts exactly the
three declared labels, and the confidence is bounded by `ge=0.0, le=1.0`. -/
def parseRequestType (j : Json) : Except String RequestType :=
  match j with
  | .obj fs =>
    match jLookup fs "description" with
    | some (.str d) =>
      match jLookup fs "request_type" with
      | some (.str t) =>
        match (if t = "new_event" then some RequestLabel.new_event
               else if t = "modify_event" then some RequestLabel.modify_event
               else if t = "other" then some RequestLabel.other
               else none) with
        | some lab =>
          match jLookup fs "confidence_score" with
          | some (.num q) =>
            if 0 ≤ q ∧ q ≤ 1 then .ok ⟨d, lab, q⟩ else .error "confidence_score"
          | _ => .error "confidence_score"
        | none => .error "request_type"
      | _ => .error "request_type"
    | _ => .error "description"
  | _ => .error "__root__"

/-- Validator for `NewEventDetails`. -/
def parseNewEventDetails (j : Json) : Except String NewEventDetails :=
  match j with
  | .obj fs =>
    match jLookup fs "name" with
    | some (.str n) =>
      match jLookup fs "date" with
      | some (.str dt) =>
        match jLookup fs "duration" with
        | some (.num du) =>
          match jLookup fs "participants" with
          | some (.arr xs) =>
            match decodeStrList xs with
            | some ps => .ok ⟨n, dt, du, ps⟩
            | none => .error "participants"
          | _ => .error "participants"
        | _ => .error "duration"
      | _ => .error "date"
    | _ => .error "name"
  | _ => .error "__root__"

/-- Validator for `ModifyEventDetails`. -/
def parseModifyEventDetails (j : Json) : Except String ModifyEventDetails :=
  match j with
  | .obj fs =>
    match jLookup fs "description" with
    | some (.str d) =>
      match jLookup fs "updated_date" with
      | some (.str u) =>
        match jLookup fs "participants_to_add" with
        | some (.arr xs) =>
          match decodeStrList xs with
          | some pa =>
            match jLookup fs "participants_to_remove" with
            | some (.arr ys) =>
              match decodeStrList ys with
              | some pr => .ok ⟨d, u, pa, pr⟩
              | none => .error "participants_to_remove"
            | _ => .error "participants_to_remove"
          | none => .error "participants_to_add"
        | _ => .error "participants_to_add"
      | _ => .error "updated_date"
    | _ => .error "description"
  | _ => .error "__root__"

/-! Schemas of `03-parallization.py`. -/

/-- Schema `CalenderValidation` (relevance check). -/
structure CalenderValidation where
  is_calender_request : Bool
  confidence_score : ℚ
deriving DecidableEq

/-- Schema `SecurityChecks` (safety check). -/
structure SecurityChecks where
  is_safe : Bool
  risk_flags : List String
deriving DecidableEq

/-- Validator for `CalenderValidation` (confidence bounded `ge=0, le=1`). -/
def parseCalenderValidation (j : Json) : Except String CalenderValidation :=
  match j with
  | .obj fs =>
    match jLookup fs "is_calender_request" with
    | some (.bool b) =>
      match jLookup fs "confidence_score" with
      | some (.num q) =>
        if 0 ≤ q ∧ q ≤ 1 then .ok ⟨b, q⟩ else .error "confidence_score"
      | _ => .error "confidence_score"
    | _ => .error "is_calender_request"
  | _ => .error "__root__"

/-- Serializer for `CalenderValidation`. -/
def calenderValidationToJson (x : CalenderValidation) : Json :=
  .obj [("is_calender_request", .bool x.is_calender_request),
        ("confidence_score", .num x.confidence_score)]

/-- Validator for `SecurityChecks`. -/
def parseSecurityChecks (j : Json) : Except String SecurityChecks :=
  match j with
  | .obj fs =>
    match jLookup fs "is_safe" with
    | some (.bool b) =>
      match jLookup fs "risk_flags" with
      | some (.arr xs) =>
        match decodeStrList xs with
        | some fl => .ok ⟨b, fl⟩
        | none => .error "risk_flags"
      | _ => .error "risk_flags"
    | _ => .error "is_safe"
  | _ => .error "__root__"

/-- Serializer for `SecurityChecks`. -/
def securityChecksToJson (x : SecurityChecks) : Json :=
  .obj [("is_safe", .bool x.is_safe),
        ("risk_flags", .arr (x.risk_flags.map .str))]

/-! Pattern Steps.  Each wraps the shared step body with its schema,
mirroring the step functions of the source one for one. -/

/-- Step `validate_event_description` of `01-Prompt-Chaining.py`. -/
def validate_event_description (r : ApiResult) : Except CallError EventValidation :=
  runStep parseEventValidation r

/-- Step `extract_event` of `01-Prompt-Chaining.py`. -/
def extract_event (r : ApiResult) : Except CallError EventDetails :=
  runStep parseEventDetails r

/-- Step `generate_confirmation` of `01-Prompt-Chaining.py`. -/
def generate_confirmation (r : ApiResult) : Except CallError EventConfirmation :=
  runStep parseEventConfirmation r

/-- Step `clasify_request` of `02-routing.py` (source spelling kept). -/
def clasify_request (r : ApiResult) : Except CallError RequestType :=
  runStep parseRequestType r

/-- Step `handle_new_event` of `02-routing.py`: parses `NewEventDetails`
from the response and wraps it in a `ModifyConfirmation` with
`success=True` and the formatted message of the source (the Python float
rendering of `duration` is abstracted by the rational `toString`). -/
def handle_new_event (r : ApiResult) : Except CallError ModifyConfirmation :=
  (runStep parseNewEventDetails r).map fun result =>
    { success := true
      message := "New event created called: \x27" ++ result.name ++
        "\x27, scheduled on " ++ result.date ++ " for " ++
        toString result.duration ++ " minutes with participants " ++
        String.intercalate ", " result.participants ++ "." }

/-- Step `handle_modify_event` of `02-routing.py`: parses
`ModifyEventDetails` and wraps it with `success=True`. -/
def handle_modify_event (r : ApiResult) : Except CallError ModifyConfirmation :=
  (runStep parseModifyEventDetails r).map fun result =>
    { success := true
      message := "Event modified with description: \x27" ++
        result.description ++ "\x27, updated date: " ++ result.updated_date ++
        ", participants to add: " ++
        String.intercalate ", " result.participants_to_add ++
        ", participants to remove: " ++
        String.intercalate ", " result.participants_to_remove ++ "." }

/-- Step `validate_description` of `03-parallization.py`. -/
def validate_description (r : ApiResult) : Except CallError CalenderValidation :=
  runStep parseCalenderValidation r

/-- Step `security_checks` of `03-parallization.py`. -/
def security_checks (r : ApiResult) : Except CallError SecurityChecks :=
  runStep parseSecurityChecks r

/-! Orchestrators.  Each is parameterised by an oracle giving the
Completion Client response for every request the orchestrator can issue;
the oracle argument records what the request content depends on. -/

/-- Completion Client responses for the three chain steps of
`01-Prompt-Chaining.py`: validation depends on the user input, extraction
on the rephrased description, confirmation on the extracted details. -/
structure ChainOracle where
  validateResp : String → ApiResult
  extractResp : String → ApiResult
  confirmResp : EventDetails → ApiResult

/-- Chain Orchestrator `process_calender_request` of
`01-Prompt-Chaining.py` (source spelling kept).  Returns the Python
return value (`none` is the rejected sentinel, an uncaught exception is
`Except.error`) paired with the number of Completion Client calls issued
on that control path (a call that raises still counts as issued). -/
def process_calender_request (o : ChainOracle) (user_input : String) :
    Except CallError (Option EventConfirmation) × Nat :=
  match validate_event_description (o.validateResp user_input) with
  | .error e => (.error e, 1)
  | .ok result =>
    if result.is_event = false ∨ result.confidence_score < mkRat 7 10 then
      (.ok none, 1)
    else
      match extract_event (o.extractResp result.description) with
      | .error e => (.error e, 2)
      | .ok details =>
        match generate_confirmation (o.confirmResp details) with
        | .error e => (.error e, 3)
        | .ok confirmation => (.ok (some confirmation), 3)

/-- Completion Client responses for the router of `02-routing.py`:
classification depends on the user description, each handler on the
description it is dispatched with. -/
structure RouterOracle where
  classifyResp : String → ApiResult
  newEventResp : String → ApiResult
  modifyEventResp : String → ApiResult

/-- Identity of a router handler. -/
inductive HandlerId where
  | newEvent
  | modifyEvent
deriving DecidableEq

/-- Router `process_calendar_request` of `02-routing.py`.  Returns the
Python return value paired with the trace of handler invocations, each
with the exact input string the handler received. -/
def process_calendar_request (o : RouterOracle) (description : String) :
    Except CallError (Option ModifyConfirmation) × List (HandlerId × String) :=
  match clasify_request (o.classifyResp description) with
  | .error e => (.error e, [])
  | .ok classification =>
    if classification.confidence_score < mkRat 7 10 then
      (.ok none, [])
    else
      match classification.request_type with
      | .new_event =>
        ((handle_new_event (o.newEventResp classification.description)).map some,
         [(.newEvent, classification.description)])
      | .modify_event =>
        ((handle_modify_event (o.modifyEventResp classification.description)).map some,
         [(.modifyEvent, classification.description)])
      | .other => (.ok none, [])

/-- Completion Client responses for the two concurrent steps of
`03-parallization.py`; both receive the same description. -/
structure FanoutOracle where
  validateResp : String → ApiResult
  securityResp : String → ApiResult

/-- Fan-out Coordinator `process_validation` of `03-parallization.py`:
`asyncio.gather` of the two steps (with default `return_exceptions`,
an exception in either task is re-raised by `gather`; both tasks are
issued regardless), then the pair of booleans of the source `return`. -/
def process_validation (o : FanoutOracle) (description : String) :
    Except CallError (Bool × Bool) :=
  match validate_description (o.validateResp description),
        security_checks (o.securityResp description) with
  | .error e, _ => .error e
  | .ok _, .error e => .error e
  | .ok v, .ok s =>
    .ok (v.is_calender_request && decide (mkRat 7 10 < v.confidence_score),
         s.is_safe)

/-- Modelled from the spec: the single-boolean combination the spec
claims the Fan-out Coordinator produces — the logical AND of
(is relevant AND confidence above the 0.7 threshold) with (is safe).
Declared only to compare the claim against `process_validation`. -/
def spec_combined_and (v : CalenderValidation) (s : SecurityChecks) : Bool :=
  (v.is_calender_request && decide (mkRat 7 10 < v.confidence_score)) && s.is_safe

/-! Two-call tool protocol of `03-AI-Introduction/03-tools.py` and
`04-retrieval.py`.  Both scripts share the same straight-line shape:
first call with declared tools, extract the first tool call, parse its
arguments, invoke the local function, second call whose message list
appends the assistant tool-call message and a tool-role result message. -/

/-- Tool-call request inside an API message (`id`, `function.name`,
`function.arguments` as a JSON-encoded string). -/
structure ToolCall where
  id : String
  name : String
  arguments : RawText

/-- API message of a completion choice: optional free-text content and
optional tool-call list. -/
structure ApiMessage where
  content : Option RawText
  tool_calls : Option (List ToolCall)

/-- Outcome of one `ai.chat.completions.create` call in the tool scripts. -/
inductive ToolApiResult where
  | raised
  | returned (msg : ApiMessage)

/-- Message of the request conversation, as assembled by the scripts.
`assistant` carries the first response message
(`first_request.choices[0].message.to_dict()`), `tool` carries the tool
call id and the `json.dumps` of the local function output. -/
inductive Msg where
  | system (content : String)
  | user (content : String)
  | assistant (m : ApiMessage)
  | tool (tool_call_id : String) (content : RawText)

/-- Python `json.dumps`: its output always decodes back to the value. -/
def jsonDumps (j : Json) : RawText := .valid j

/-- Completion Client responses plus the local tool function
(`get_weather` / `get_knowledge`, an external collaborator receiving the
parsed argument object). -/
structure ToolOracle where
  firstResp : List Msg → ToolApiResult
  localTool : Json → Json
  secondResp : List Msg → ToolApiResult

/-- Two-call tool protocol shared by `03-tools.py` and `04-retrieval.py`:
first call (system prompt `sys1`, user prompt `userMsg`, tools declared),
the `assert tool_calls is not None` guard, `tool_calls[0]`, `json.loads`
of its arguments, local function invocation, second call on
`[sys2, user, assistant message, tool result]`, returning the second
message list and the second response content, paired with the number of
Completion Client calls issued. -/
def run_tool_protocol (sys1 sys2 userMsg : String) (o : ToolOracle) :
    Except CallError (List Msg × Option RawText) × Nat :=
  match o.firstResp [.system sys1, .user userMsg] with
  | .raised => (.error .transport, 1)
  | .returned m1 =>
    match m1.tool_calls with
    | none => (.error .noToolCall, 1)
    | some [] => (.error .indexError, 1)
    | some (tool_call :: _) =>
      match tool_call.arguments with
      | .invalid _ => (.error .jsonDecode, 1)
      | .valid args =>
        let output := o.localTool args
        let msgs : List Msg :=
          [.system sys2, .user userMsg, .assistant m1,
           .tool tool_call.id (jsonDumps output)]
        match o.secondResp msgs with
        | .raised => (.error .transport, 2)
        | .returned m2 => (.ok (msgs, m2.content), 2)

/-- Result projection used by witnesses: the `success` field of a handler
outcome, when the handler returned. -/
def okSuccess : Except CallError ModifyConfirmation → Option Bool
  | .ok m => some m.success
  | .error _ => none

/-- Dispatch trace determined by a classification result alone. -/
def routeTrace (c : RequestType) : List (HandlerId × String) :=
  if c.confidence_score < mkRat 7 10 then []
  else
    match c.request_type with
    | .new_event => [(.newEvent, c.description)]
    | .modify_event => [(.modifyEvent, c.description)]
    | .other => []

/-- C9: every Router handler invocation that completes without raising
returns a `ModifyConfirmation` whose `success` field is true; neither
`handle_new_event` nor `handle_modify_event` can return `success = false`. -/
theorem handlers_always_report_success :
    (∀ r m, handle_new_event r = .ok m → m.success = true)
  ∧ (∀ r m, handle_modify_event r = .ok m → m.success = true) := by
  constructor <;> intro r m h
  · unfold handle_new_event at h
    cases hr : runStep parseNewEventDetails r with
    | error e => rw [hr] at h; simp [Except.map] at h
    | ok d => rw [hr] at h; simp [Except.map] at h; rw [← h]
  · unfold handle_modify_event at h
    cases hr : runStep parseModifyEventDetails r with
    | error e => rw [hr] at h; simp [Except.map] at h
    | ok d => rw [hr] at h; simp [Except.map] at h; rw [← h]

/-- Witness for C9 at a concrete successful handler response. -/
theorem handlers_always_report_success_witness :
    okSuccess (handle_new_event (.returned (some (.valid (.obj
      [("name", .str "t"), ("date", .str "2026-01-01T10:00"),
       ("duration", .num (mkRat 60 1)), ("participants", .arr [.str "Alice"])]))))) =
    some true := by
  cases hm : handle_new_event (.returned (some (.valid (.obj
      [("name", .str "t"), ("date", .str "2026-01-01T10:00"),
       ("duration", .num (mkRat 60 1)), ("participants", .arr [.str "Alice"])])))) with
  | error e =>
    have hok : okSuccess (handle_new_event (.returned (some (.valid (.obj
      [("name", .str "t"), ("date", .str "2026-01-01T10:00"),
       ("duration", .num (mkRat 60 1)), ("participants", .arr [.str "Alice"])]))))) ≠ none := by decide
    rw [hm] at hok; simp [okSuccess] at hok
  | ok m =>
    simp [okSuccess]
    exact handlers_always_report_success.1 _ m hm

/-- C5: a JSON-mode Pattern Step raises `EmptyResponseError` exactly when
the Completion Client call succeeds but the returned message content is
`None`; stated generically for the shared step body, for the two cited
steps, and as abort propagation through each enclosing orchestrator. -/
theorem empty_response_iff_none_content :
    (∀ (T : Type) (parse : Json → Except String T) (r : ApiResult),
        runStep parse r = .error .emptyResponse ↔ r = .returned none)
  ∧ (∀ r, validate_event_description r = .error .emptyResponse ↔ r = .returned none)
  ∧ (∀ r, validate_description r = .error .emptyResponse ↔ r = .returned none)
  ∧ (∀ (o : ChainOracle) (u : String), o.validateResp u = .returned none →
        process_calender_request o u = (.error .emptyResponse, 1))
  ∧ (∀ (o : RouterOracle) (d : String), o.classifyResp d = .returned none →
        process_calendar_request o d = (.error .emptyResponse, []))
  ∧ (∀ (o : FanoutOracle) (d : String), o.validateResp d = .returned none →
        process_validation o d = .error .emptyResponse) := by
  have hgen : ∀ (T : Type) (parse : Json → Except String T) (r : ApiResult),
      runStep parse r = .error .emptyResponse ↔ r = .returned none := by
    intro T parse r
    constructor
    · intro h
      cases r with
      | raised => simp [runStep] at h
      | returned c =>
        cases c with
        | none => rfl
        | some rt =>
          cases rt with
          | invalid s => simp [runStep, decode_and_validate] at h
          | valid j =>
            simp [runStep, decode_and_validate] at h
            cases hp : parse j with
            | error f => rw [hp] at h; simp at h
            | ok t => rw [hp] at h; simp at h
    · intro h; subst h; rfl
  refine ⟨hgen, fun r => hgen _ _ r, fun r => hgen _ _ r, ?_, ?_, ?_⟩
  · intro o u h
    unfold process_calender_request
    rw [show validate_event_description (o.validateResp u) = .error .emptyResponse by
          rw [h]; rfl]
  · intro o d h
    unfold process_calendar_request
    rw [show clasify_request (o.classifyResp d) = .error .emptyResponse by
          rw [h]; rfl]
  · intro o d h
    unfold process_validation
    rw [show validate_description (o.validateResp d) = .error .emptyResponse by
          rw [h]; rfl]

/-- Witness for C5: a `None` content makes the first chain step raise
`EmptyResponseError` and the Chain Orchestrator abort after one call. -/
theorem empty_response_iff_none_content_witness :
    process_calender_request
      ⟨fun _ => .returned none, fun _ => .raised, fun _ => .raised⟩ "hello" =
      (.error .emptyResponse, 1) := by
  exact empty_response_iff_none_content.2.2.2.1
    ⟨fun _ => .returned none, fun _ => .raised, fun _ => .raised⟩ "hello" rfl

/-- C7: every successfully validated instance of a confidence-bearing
schema (`EventValidation`, `RequestType`, `CalenderValidation`) has its
`confidence_score` in the closed interval [0, 1]; every orchestration
operation obtains such instances only through these validators. -/
theorem confidence_scores_bounded :
    (∀ j x, parseEventValidation j = .ok x →
        0 ≤ x.confidence_score ∧ x.confidence_score ≤ 1)
  ∧ (∀ j x, parseRequestType j = .ok x →
        0 ≤ x.confidence_score ∧ x.confidence_score ≤ 1)
  ∧ (∀ j x, parseCalenderValidation j = .ok x →
        0 ≤ x.confidence_score ∧ x.confidence_score ≤ 1) := by
  refine ⟨?_, ?_, ?_⟩ <;> intro j x h
  · unfold parseEventValidation at h
    repeat' split at h
    all_goals try exact Except.noConfusion h
    rename_i hb
    obtain ⟨h0, h1⟩ := hb
    cases h
    exact ⟨h0, h1⟩
  · unfold parseRequestType at h
    repeat' split at h
    all_goals try exact Except.noConfusion h
    rename_i hb
    obtain ⟨h0, h1⟩ := hb
    cases h
    exact ⟨h0, h1⟩
  · unfold parseCalenderValidation at h
    repeat' split at h
    all_goals try exact Except.noConfusion h
    rename_i hb
    obtain ⟨h0, h1⟩ := hb
    cases h
    exact ⟨h0, h1⟩

/-- Witness for C7 at a concrete validated instance. -/
theorem confidence_scores_bounded_witness :
    (0 : ℚ) ≤ mkRat 9 10 ∧ (mkRat 9 10 : ℚ) ≤ 1 := by
  exact confidence_scores_bounded.1
    (.obj [("description", .str "d"), ("is_event", .bool true),
           ("confidence_score", .num (mkRat 9 10))])
    ⟨"d", true, mkRat 9 10⟩ (by decide)

/-- C2: with the validation step returning a typed result, the Chain
Orchestrator issues exactly one Completion Client call and returns the
rejected sentinel when `is_event` is false or the confidence is below 0.7,
and otherwise (when the dependent steps return) issues exactly three calls
in sequence, extraction consuming the validated description and
confirmation consuming the extracted details, returning the confirmation. -/
theorem chain_short_circuit_and_call_counts
    (o : ChainOracle) (u : String) (v : EventValidation)
    (hv : validate_event_description (o.validateResp u) = .ok v) :
    ((v.is_event = false ∨ v.confidence_score < mkRat 7 10) →
      process_calender_request o u = (.ok none, 1))
  ∧ (v.is_event = true → mkRat 7 10 ≤ v.confidence_score →
      ∀ d c, extract_event (o.extractResp v.description) = .ok d →
        generate_confirmation (o.confirmResp d) = .ok c →
        process_calender_request o u = (.ok (some c), 3)) := by
  constructor
  · intro hrej
    unfold process_calender_request
    rw [hv]
    simp only [hrej, if_pos]
  · intro he hc d c hd hcf
    have hcond : ¬(v.is_event = false ∨ v.confidence_score < mkRat 7 10) := by
      rintro (h1 | h2)
      · rw [he] at h1; exact Bool.noConfusion h1
      · exact absurd h2 (not_lt.mpr hc)
    unfold process_calender_request
    rw [hv]
    dsimp only
    rw [if_neg hcond, hd]
    dsimp only
    rw [hcf]

/-- Witness for C2: a proceeding run issues three calls and returns the
confirmation. -/
theorem chain_short_circuit_and_call_counts_witness :
    process_calender_request
      ⟨fun _ => .returned (some (.valid (eventValidationToJson ⟨"desc", true, mkRat 9 10⟩))),
       fun _ => .returned (some (.valid (eventDetailsToJson ⟨"m", "2026-01-01", mkRat 60 1, ["Alice"]⟩))),
       fun _ => .returned (some (.valid (eventConfirmationToJson ⟨"done", none⟩)))⟩ "x" =
      (.ok (some ⟨"done", none⟩), 3) := by
  exact (chain_short_circuit_and_call_counts _ "x" ⟨"desc", true, mkRat 9 10⟩ (by decide)).2
    rfl (by decide) ⟨"m", "2026-01-01", mkRat 60 1, ["Alice"]⟩ ⟨"done", none⟩
    (by decide) (by decide)

/-- C3: with the classification step returning a typed result, the Router
returns the rejected sentinel with no handler invoked when the confidence
is below 0.7 or the label is `other`, dispatches to exactly
`handle_new_event` for `new_event` and exactly `handle_modify_event` for
`modify_event` (passing the rephrased description), and never invokes
more than one handler per request. -/
theorem router_dispatches_at_most_one_handler
    (o : RouterOracle) (d : String) (c : RequestType)
    (hc : clasify_request (o.classifyResp d) = .ok c) :
    (c.confidence_score < mkRat 7 10 →
      process_calendar_request o d = (.ok none, []))
  ∧ (mkRat 7 10 ≤ c.confidence_score → c.request_type = .other →
      process_calendar_request o d = (.ok none, []))
  ∧ (mkRat 7 10 ≤ c.confidence_score → c.request_type = .new_event →
      process_calendar_request o d =
        ((handle_new_event (o.newEventResp c.description)).map some,
         [(.newEvent, c.description)]))
  ∧ (mkRat 7 10 ≤ c.confidence_score → c.request_type = .modify_event →
      process_calendar_request o d =
        ((handle_modify_event (o.modifyEventResp c.description)).map some,
         [(.modifyEvent, c.description)]))
  ∧ (∀ (o2 : RouterOracle) (d2 : String),
      ((process_calendar_request o2 d2).2).length ≤ 1) := by
  refine ⟨?_, ?_, ?_, ?_, ?_⟩
  · intro hlt
    unfold process_calendar_request
    rw [hc]
    dsimp only
    rw [if_pos hlt]
  · intro hge hot
    unfold process_calendar_request
    rw [hc]
    dsimp only
    rw [if_neg (not_lt.mpr hge), hot]
  · intro hge hnew
    unfold process_calendar_request
    rw [hc]
    dsimp only
    rw [if_neg (not_lt.mpr hge), hnew]
  · intro hge hmod
    unfold process_calendar_request
    rw [hc]
    dsimp only
    rw [if_neg (not_lt.mpr hge), hmod]
  · intro o2 d2
    unfold process_calendar_request
    cases h2 : clasify_request (o2.classifyResp d2) with
    | error e => simp
    | ok c2 =>
      dsimp only
      by_cases hlt : c2.confidence_score < mkRat 7 10
      · rw [if_pos hlt]; simp
      · rw [if_neg hlt]
        cases hl : c2.request_type <;> simp

/-- Witness for C3: a confident `new_event` classification dispatches to
the new-event handler with the rephrased description. -/
theorem router_dispatches_at_most_one_handler_witness :
    process_calendar_request
      ⟨fun _ => .returned (some (.valid (.obj
          [("description", .str "re"), ("request_type", .str "new_event"),
           ("confidence_score", .num (mkRat 8 10))]))),
       fun _ => .raised, fun _ => .raised⟩ "u" =
      ((handle_new_event ApiResult.raised).map some, [(HandlerId.newEvent, "re")]) := by
  exact (router_dispatches_at_most_one_handler _ "u" ⟨"re", .new_event, mkRat 8 10⟩
    (by decide)).2.2.1 (by decide) rfl

/-- Helper: the Router's handler-invocation trace is a function of the
classification result alone. -/
theorem router_trace_eq (o : RouterOracle) (d : String) (c : RequestType)
    (hc : clasify_request (o.classifyResp d) = .ok c) :
    (process_calendar_request o d).2 = routeTrace c := by
  unfold process_calendar_request routeTrace
  rw [hc]
  dsimp only
  by_cases hlt : c.confidence_score < mkRat 7 10
  · rw [if_pos hlt, if_pos hlt]
  · rw [if_neg hlt, if_neg hlt]
    cases hl : c.request_type <;> simp

/-- C10: the Router hands the selected handler the classification step
rephrased `description` field, and two invocations whose classification
steps return equal `RequestType` values produce identical dispatch traces
(same handler, same handler input) whatever the original user texts were. -/
theorem router_handler_input_is_rephrased_description :
    (∀ (o : RouterOracle) (d : String) (c : RequestType),
        clasify_request (o.classifyResp d) = .ok c →
        ∀ p ∈ (process_calendar_request o d).2, p.2 = c.description)
  ∧ (∀ (o o2 : RouterOracle) (d d2 : String) (c : RequestType),
        clasify_request (o.classifyResp d) = .ok c →
        clasify_request (o2.classifyResp d2) = .ok c →
        (process_calendar_request o d).2 = (process_calendar_request o2 d2).2) := by
  constructor
  · intro o d c hc p hp
    rw [router_trace_eq o d c hc] at hp
    unfold routeTrace at hp
    by_cases hlt : c.confidence_score < mkRat 7 10
    · rw [if_pos hlt] at hp; simp at hp
    · rw [if_neg hlt] at hp
      cases hl : c.request_type <;> rw [hl] at hp <;> simp at hp <;>
        simp [hp]
  · intro o o2 d d2 c hc hc2
    rw [router_trace_eq o d c hc, router_trace_eq o2 d2 c hc2]

/-- Witness for C10: two different user texts with the same classification
result yield the same dispatch trace. -/
theorem router_handler_input_is_rephrased_description_witness :
    (process_calendar_request
      ⟨fun _ => .returned (some (.valid (.obj
          [("description", .str "re"), ("request_type", .str "modify_event"),
           ("confidence_score", .num (mkRat 8 10))]))),
       fun _ => .raised, fun _ => .raised⟩ "first text").2 =
    (process_calendar_request
      ⟨fun _ => .returned (some (.valid (.obj
          [("description", .str "re"), ("request_type", .str "modify_event"),
           ("confidence_score", .num (mkRat 8 10))]))),
       fun _ => .raised, fun _ => .raised⟩ "second text").2 := by
  exact router_handler_input_is_rephrased_description.2 _ _ "first text" "second text"
    ⟨"re", .modify_event, mkRat 8 10⟩ (by decide) (by decide)

/-- C4 (amended): the Fan-out Coordinator, when both concurrent steps
return, produces the pair (relevance flag AND confidence strictly above
0.7, safety flag) — the two sub-results side by side, not their logical
AND — and if either sub-task raises, the whole coordination fails with
the raised error and no partial pair is produced. -/
theorem fanout_pair_and_aggregate_failure :
    (∀ (o : FanoutOracle) (d : String) (v : CalenderValidation) (s : SecurityChecks),
        validate_description (o.validateResp d) = .ok v →
        security_checks (o.securityResp d) = .ok s →
        process_validation o d =
          .ok (v.is_calender_request && decide (mkRat 7 10 < v.confidence_score),
               s.is_safe))
  ∧ (∀ (o : FanoutOracle) (d : String) (e : CallError),
        validate_description (o.validateResp d) = .error e →
        process_validation o d = .error e)
  ∧ (∀ (o : FanoutOracle) (d : String) (e : CallError),
        security_checks (o.securityResp d) = .error e →
        ∀ p, process_validation o d ≠ .ok p) := by
  refine ⟨?_, ?_, ?_⟩
  · intro o d v s hv hs
    unfold process_validation
    rw [hv, hs]
  · intro o d e hv
    unfold process_validation
    rw [hv]
  · intro o d e hs p
    unfold process_validation
    rw [hs]
    cases hv : validate_description (o.validateResp d) with
    | error e2 => simp
    | ok v => simp

/-- Witness for C4: both steps return, yielding the componentwise pair. -/
theorem fanout_pair_and_aggregate_failure_witness :
    process_validation
      ⟨fun _ => .returned (some (.valid (calenderValidationToJson ⟨true, mkRat 9 10⟩))),
       fun _ => .returned (some (.valid (securityChecksToJson ⟨true, ["x"]⟩)))⟩ "d" =
      .ok (true && decide (mkRat 7 10 < mkRat 9 10), true) := by
  exact fanout_pair_and_aggregate_failure.1 _ "d" ⟨true, mkRat 9 10⟩ ⟨true, ["x"]⟩
    (by decide) (by decide)

/-- Counterexample for C4 as stated: with both steps succeeding on a
relevant (confidence 1) but unsafe input, the coordinator returns the
pair `(true, false)`; the single boolean the claim asserts — the logical
AND of the relevance conjunct with `is_safe` — is `false`, so the
combined result is not that AND (its first component is `true`). -/
theorem fanout_pair_and_aggregate_failure_counterexample :
    process_validation
      ⟨fun _ => .returned (some (.valid (calenderValidationToJson ⟨true, mkRat 1 1⟩))),
       fun _ => .returned (some (.valid (securityChecksToJson ⟨false, []⟩)))⟩ "d" =
      .ok (true, false)
  ∧ spec_combined_and ⟨true, mkRat 1 1⟩ ⟨false, []⟩ = false := by decide

/-- C1 (amended): the Chain Orchestrator gate is boundary inclusive
(accepts exactly when `is_event` is true and confidence ≥ 0.7, rejection
observable as the single-call short circuit), the Router confidence gate
is boundary inclusive (a confident `new_event` classification dispatches
exactly when confidence ≥ 0.7, no boolean flag exists there), while the
Fan-out relevance gate is boundary exclusive: its combined flag is true
exactly when `is_calender_request` is true and confidence is strictly
greater than 0.7, so confidence 0.7 exactly is rejected there. -/
theorem gating_thresholds
    (co : ChainOracle) (u : String) (v : EventValidation)
    (hv : validate_event_description (co.validateResp u) = .ok v)
    (ro : RouterOracle) (d : String) (c : RequestType)
    (hc : clasify_request (ro.classifyResp d) = .ok c)
    (hn : c.request_type = .new_event)
    (fo : FanoutOracle) (fd : String) (w : CalenderValidation) (s : SecurityChecks)
    (hw : validate_description (fo.validateResp fd) = .ok w)
    (hs : security_checks (fo.securityResp fd) = .ok s) :
    ((process_calender_request co u).2 = 1 ↔
        ¬(v.is_event = true ∧ mkRat 7 10 ≤ v.confidence_score))
  ∧ ((process_calendar_request ro d).2 ≠ [] ↔ mkRat 7 10 ≤ c.confidence_score)
  ∧ (process_validation fo fd = .ok (true, s.is_safe) ↔
        (w.is_calender_request = true ∧ mkRat 7 10 < w.confidence_score)) := by
  refine ⟨?_, ?_, ?_⟩
  · unfold process_calender_request
    rw [hv]
    dsimp only
    by_cases hcond : v.is_event = false ∨ v.confidence_score < mkRat 7 10
    · rw [if_pos hcond]
      refine iff_of_true rfl ?_
      rintro ⟨he, hge⟩
      rcases hcond with h1 | h2
      · rw [he] at h1; exact Bool.noConfusion h1
      · exact absurd h2 (not_lt.mpr hge)
    · have hev : v.is_event = true ∧ mkRat 7 10 ≤ v.confidence_score := by
        push_neg at hcond
        exact ⟨by simpa using hcond.1, hcond.2⟩
      rw [if_neg hcond]
      refine iff_of_false ?_ (by simpa using hev)
      intro h1
      rcases hext : extract_event (co.extractResp v.description) with e | det
      · rw [hext] at h1; simp at h1
      · rw [hext] at h1
        dsimp only at h1
        rcases hcf : generate_confirmation (co.confirmResp det) with e2 | cf
        · rw [hcf] at h1; simp at h1
        · rw [hcf] at h1; simp at h1
  · rw [router_trace_eq ro d c hc]
    unfold routeTrace
    rw [hn]
    by_cases hlt : c.confidence_score < mkRat 7 10
    · rw [if_pos hlt]
      exact iff_of_false (by simp) (not_le.mpr hlt)
    · rw [if_neg hlt]
      exact iff_of_true (by simp) (not_lt.mp hlt)
  · unfold process_validation
    rw [hw, hs]
    constructor
    · intro h
      have hpair := Except.ok.inj h
      have hfst : (w.is_calender_request &&
          decide (mkRat 7 10 < w.confidence_score)) = true :=
        congrArg Prod.fst hpair
      simp only [Bool.and_eq_true, decide_eq_true_eq] at hfst
      exact hfst
    · rintro ⟨h1, h2⟩
      simp [h1, h2]

/-- Witness for C1 at concrete accepted gates on both sides of each
boundary form. -/
theorem gating_thresholds_witness :
    ((process_calender_request
        ⟨fun _ => .returned (some (.valid (eventValidationToJson ⟨"desc", true, mkRat 9 10⟩))),
         fun _ => .raised, fun _ => .raised⟩ "u").2 = 1 ↔
      ¬((true : Bool) = true ∧ mkRat 7 10 ≤ mkRat 9 10))
  ∧ ((process_calendar_request
        ⟨fun _ => .returned (some (.valid (.obj
            [("description", .str "re"), ("request_type", .str "new_event"),
             ("confidence_score", .num (mkRat 8 10))]))),
         fun _ => .raised, fun _ => .raised⟩ "t").2 ≠ [] ↔
      mkRat 7 10 ≤ mkRat 8 10)
  ∧ (process_validation
        ⟨fun _ => .returned (some (.valid (calenderValidationToJson ⟨true, mkRat 9 10⟩))),
         fun _ => .returned (some (.valid (securityChecksToJson ⟨true, []⟩)))⟩ "f" =
        .ok (true, true) ↔
      ((true : Bool) = true ∧ mkRat 7 10 < mkRat 9 10)) := by
  exact gating_thresholds
    _ "u" ⟨"desc", true, mkRat 9 10⟩ (by decide)
    _ "t" ⟨"re", .new_event, mkRat 8 10⟩ (by decide) rfl
    _ "f" ⟨true, mkRat 9 10⟩ ⟨true, []⟩ (by decide) (by decide)

/-- Counterexample for C1 as stated: at the Fan-out relevance gate the
boolean flag is true and the confidence is exactly 0.7, which the claim
says is accepted (boundary inclusive); the coordinator nevertheless
reports the relevance component `false` — the strict `> 0.7` comparison
of the source rejects the boundary. -/
theorem gating_thresholds_counterexample :
    process_validation
      ⟨fun _ => .returned (some (.valid (calenderValidationToJson ⟨true, mkRat 7 10⟩))),
       fun _ => .returned (some (.valid (securityChecksToJson ⟨true, []⟩)))⟩ "d" =
      .ok (false, true) := by decide

/-- C8: the two-call tool protocol of the tool and retrieval scripts — the
first call must yield a tool invocation (`NoToolCallError` otherwise, one
call issued), and on the happy path the first tool call arguments are
parsed, the local function invoked on them, and the second of exactly two
calls receives the conversation extended by the assistant tool-call
message and a tool-role message carrying that call id and the
JSON-encoded local output. -/
theorem two_call_tool_protocol
    (sys1 sys2 userMsg : String) (o : ToolOracle) :
    (∀ m1, o.firstResp [.system sys1, .user userMsg] = .returned m1 →
        m1.tool_calls = none →
        run_tool_protocol sys1 sys2 userMsg o = (.error .noToolCall, 1))
  ∧ (∀ m1 tc rest args m2,
        o.firstResp [.system sys1, .user userMsg] = .returned m1 →
        m1.tool_calls = some (tc :: rest) →
        tc.arguments = .valid args →
        o.secondResp [.system sys2, .user userMsg, .assistant m1,
                      .tool tc.id (jsonDumps (o.localTool args))] = .returned m2 →
        run_tool_protocol sys1 sys2 userMsg o =
          (.ok ([.system sys2, .user userMsg, .assistant m1,
                 .tool tc.id (jsonDumps (o.localTool args))], m2.content), 2)) := by
  constructor
  · intro m1 h1 hnone
    unfold run_tool_protocol
    rw [h1]
    dsimp only
    rw [hnone]
  · intro m1 tc rest args m2 h1 htc hargs h2
    unfold run_tool_protocol
    rw [h1]
    dsimp only
    rw [htc]
    dsimp only
    rw [hargs]
    dsimp only
    rw [h2]

/-- Witness for C8 on a concrete tool-call exchange. -/
theorem two_call_tool_protocol_witness :
    run_tool_protocol "s1" "s2" "what is the weather"
      ⟨fun _ => .returned ⟨none, some [⟨"call_1", "get_weather",
          .valid (.obj [("latitude", .num (mkRat 40 1)), ("longitude", .num (mkRat 74 1))])⟩]⟩,
       fun _ => .obj [("temperature_2m", .num (mkRat 11 1))],
       fun _ => .returned ⟨some (.valid (.str "mild")), none⟩⟩ =
      (.ok ([.system "s2", .user "what is the weather",
             .assistant ⟨none, some [⟨"call_1", "get_weather",
                .valid (.obj [("latitude", .num (mkRat 40 1)), ("longitude", .num (mkRat 74 1))])⟩]⟩,
             .tool "call_1" (jsonDumps (.obj [("temperature_2m", .num (mkRat 11 1))]))],
            some (.valid (.str "mild"))), 2) := by
  exact (two_call_tool_protocol "s1" "s2" "what is the weather" _).2
    ⟨none, some [⟨"call_1", "get_weather",
        .valid (.obj [("latitude", .num (mkRat 40 1)), ("longitude", .num (mkRat 74 1))])⟩]⟩
    ⟨"call_1", "get_weather",
        .valid (.obj [("latitude", .num (mkRat 40 1)), ("longitude", .num (mkRat 74 1))])⟩
    [] (.obj [("latitude", .num (mkRat 40 1)), ("longitude", .num (mkRat 74 1))])
    ⟨some (.valid (.str "mild")), none⟩ rfl rfl rfl rfl

/-- Helper: a serialized string list decodes back to itself. -/
theorem decodeStrList_map (l : List String) :
    decodeStrList (l.map Json.str) = some l := by
  induction l with
  | nil => rfl
  | cons a t ih => simp [decodeStrList, ih]

/-- C6 (amended): round trip — serializing an in-bounds instance of each
cited schema and validating it back yields the same instance; a wrong
typed field and an out-of-range confidence (-0.1 and 1.1) fail with a
`SchemaValidationError` naming the offending field; malformed JSON fails
with the distinct JSON-decode error, which names no field. -/
theorem typed_result_round_trip :
    (∀ x : EventValidation, 0 ≤ x.confidence_score → x.confidence_score ≤ 1 →
        parseEventValidation (eventValidationToJson x) = .ok x)
  ∧ (∀ x : EventDetails, parseEventDetails (eventDetailsToJson x) = .ok x)
  ∧ (∀ x : EventConfirmation,
        parseEventConfirmation (eventConfirmationToJson x) = .ok x)
  ∧ (∀ x : CalenderValidation, 0 ≤ x.confidence_score → x.confidence_score ≤ 1 →
        parseCalenderValidation (calenderValidationToJson x) = .ok x)
  ∧ (∀ x : SecurityChecks, parseSecurityChecks (securityChecksToJson x) = .ok x)
  ∧ decode_and_validate parseEventValidation (.valid (.obj
      [("description", .num (mkRat 3 1)), ("is_event", .bool true),
       ("confidence_score", .num (mkRat 1 2))])) = .error (.schema "description")
  ∧ decode_and_validate parseEventValidation (.valid (.obj
      [("description", .str "d"), ("is_event", .bool true),
       ("confidence_score", .num (mkRat (-1) 10))])) = .error (.schema "confidence_score")
  ∧ decode_and_validate parseEventValidation (.valid (.obj
      [("description", .str "d"), ("is_event", .bool true),
       ("confidence_score", .num (mkRat 11 10))])) = .error (.schema "confidence_score")
  ∧ decode_and_validate parseEventValidation (.invalid "not json") = .error .jsonDecode
  ∧ CallError.fieldName .jsonDecode = none := by
  refine ⟨?_, ?_, ?_, ?_, ?_, by decide, by decide, by decide, by decide, by decide⟩
  · intro x h0 h1
    obtain ⟨d, b, q⟩ := x
    simp only [eventValidationToJson, parseEventValidation, jLookup]
    simp [h0, h1]
  · intro x
    obtain ⟨n, dt, du, ps⟩ := x
    simp [eventDetailsToJson, parseEventDetails, jLookup, decodeStrList_map]
  · intro x
    obtain ⟨m, l⟩ := x
    cases l <;> simp [eventConfirmationToJson, parseEventConfirmation, jLookup]
  · intro x h0 h1
    obtain ⟨b, q⟩ := x
    simp only [calenderValidationToJson, parseCalenderValidation, jLookup]
    simp [h0, h1]
  · intro x
    obtain ⟨b, fl⟩ := x
    simp [securityChecksToJson, parseSecurityChecks, jLookup, decodeStrList_map]

/-- Witness for C6 at a concrete in-bounds instance. -/
theorem typed_result_round_trip_witness :
    parseEventValidation (eventValidationToJson ⟨"d", true, mkRat 1 2⟩) =
      .ok ⟨"d", true, mkRat 1 2⟩ := by
  exact typed_result_round_trip.1 ⟨"d", true, mkRat 1 2⟩ (by decide) (by decide)

/-- Counterexample for C6 as stated: parsing malformed JSON does not fail
with a `SchemaValidationError` naming the offending field — the repo
parses with `json.loads` first, whose decode error carries no field. -/
theorem typed_result_round_trip_counterexample :
    decode_and_validate parseEventValidation (.invalid "oops") = .error .jsonDecode
  ∧ CallError.fieldName .jsonDecode = none := by decide
